import Mathlib

/-!
Shallow embedding of the WATTZ UP v2 wait-time estimator
(`src/lib/services/estimator.ts` together with the type definitions and
`INDUSTRY_DEFAULTS` from the shared types module).

Modelling conventions:
* JavaScript numbers are modelled as `ℚ` (all arithmetic in the estimator is
  over small decimal constants and averages of integers).
* Timestamps are modelled as `Int` milliseconds; `Math.floor(ms / 60000)` is
  `Int.fdiv ms 60000`.
* A Supabase read for one station is modelled by `SupaResp`: the query can
  throw (`throws`, caught only by the `try` in `estimateWaitTime`), return an
  error result or no row (`errorResult`, folded to `null` / `[]` by the
  fetcher itself), or return data (`ok`).
* JavaScript truthiness on an optional number (`obs.queue_position`,
  `sessionStats?.median_session_min || d`, `stallsTotal || 4`,
  `!maxPowerKw`) is modelled explicitly: `none` and `some 0` are falsy.
-/

namespace WattzUp

/-- `EstimationMode` enum from the types module. -/
inductive EstimationMode where
  | realtime
  | hybrid
  | fallback
  | no_data
  deriving DecidableEq, Repr

/-- `ConfidenceSource` union type from the types module. -/
inductive ConfidenceSource where
  | crowd_recent
  | historical
  | heuristic
  | realtime_api
  deriving DecidableEq, Repr

/-- One entry of `INDUSTRY_DEFAULTS`. -/
structure IndustryDefaultEntry where
  medianSessionMin : ℚ
  p75SessionMin : ℚ
  avgQueueLength : ℚ
  deriving DecidableEq, Repr

/-- Shape of the `INDUSTRY_DEFAULTS` constant. -/
structure IndustryDefaultsShape where
  DC_FAST : IndustryDefaultEntry
  LEVEL_2 : IndustryDefaultEntry
  deriving DecidableEq, Repr

/-- `INDUSTRY_DEFAULTS` from the types module. -/
def INDUSTRY_DEFAULTS : IndustryDefaultsShape :=
  { DC_FAST := { medianSessionMin := 25, p75SessionMin := 35, avgQueueLength := 1/2 }
    LEVEL_2 := { medianSessionMin := 120, p75SessionMin := 180, avgQueueLength := 1/5 } }

/-- `StationMeta` as built by `getStationMetadata`. -/
structure StationMeta where
  id : String
  stallsTotal : Nat
  maxPowerKw : Option ℚ
  deriving DecidableEq, Repr

/-- `ObservationRecord` row shape (`observations` table selection). -/
structure ObservationRecord where
  id : String
  station_id : String
  observation_type : String
  queue_position : Option ℚ
  session_duration_min : Option ℚ
  observed_at : Int
  deriving DecidableEq, Repr

/-- `SessionStatsRecord` as built by `getSessionStats` (all numeric fields
already coerced, `Number(x) || 0`, and `last_computed_at ?? now` applied). -/
structure SessionStatsRecord where
  station_id : String
  day_of_week : Nat
  hour_of_day : Nat
  median_session_min : ℚ
  p75_session_min : ℚ
  avg_queue_length : ℚ
  sample_count : Nat
  last_computed_at : Int
  deriving DecidableEq, Repr

/-- The `Estimate` output type. -/
structure Estimate where
  stationId : String
  etaWaitMinutes : Option ℚ
  confidence : ℚ
  mode : EstimationMode
  sourcesUsed : List ConfidenceSource
  computedAt : Int
  deriving DecidableEq, Repr

/-- Raw `stations` row as selected by `getStationMetadata`
(`stalls_total` and `max_power_kw` may be null). -/
structure StationRow where
  id : String
  stalls_total : Option Nat
  max_power_kw : Option ℚ
  deriving DecidableEq, Repr

/-- Raw `session_stats_hourly` row as selected by `getSessionStats`;
nullable / non-numeric fields are `Option` (the fetcher coerces them). -/
structure SessionStatsRow where
  station_id : String
  day_of_week : Nat
  hour_of_day : Nat
  median_session_min : Option ℚ
  p75_session_min : Option ℚ
  avg_queue_length : Option ℚ
  sample_count : Option Nat
  last_computed_at : Option Int
  deriving DecidableEq, Repr

/-- Outcome of one Supabase read: the awaited call throws, or it returns an
error / missing data, or it returns data. -/
inductive SupaResp (α : Type) where
  | throws
  | errorResult
  | ok (data : α)
  deriving DecidableEq, Repr

/-- The behaviour of the three repository reads issued for one station. -/
structure RepoReads where
  stationResp : SupaResp StationRow
  obsResp : SupaResp (List ObservationRecord)
  statsResp : SupaResp SessionStatsRow
  deriving DecidableEq, Repr

/-- JavaScript truthiness of an optional number: `null`/`undefined` and `0`
are falsy. -/
def truthyNum : Option ℚ → Bool
  | none => false
  | some v => decide (v ≠ 0)

/-- `getPopularityMultiplier` helper. -/
def getPopularityMultiplier (stallsTotal : Nat) : ℚ :=
  if stallsTotal ≤ 4 then 4/5
  else if stallsTotal ≤ 8 then 1
  else 6/5

/-- `getIndustryDefault` helper: `!maxPowerKw || maxPowerKw < 50` selects the
Level-2 default, otherwise DC-fast. -/
def getIndustryDefault (maxPowerKw : Option ℚ) : ℚ :=
  match maxPowerKw with
  | none => INDUSTRY_DEFAULTS.LEVEL_2.medianSessionMin
  | some p =>
    if p = 0 ∨ p < 50 then INDUSTRY_DEFAULTS.LEVEL_2.medianSessionMin
    else INDUSTRY_DEFAULTS.DC_FAST.medianSessionMin

/-- `calculateConfidence` helper, verbatim from the source. -/
def calculateConfidence (sources : List ConfidenceSource)
    (freshnessMinutes : ℚ) (dataPointsLast24h : Nat) : ℚ :=
  let baseConfidence : ℚ :=
    if sources.contains ConfidenceSource.crowd_recent then 1/2
    else if sources.contains ConfidenceSource.historical then 2/5
    else 3/10
  let freshnessFactor := max (3/10) (1 - freshnessMinutes / 60)
  let signalStrength := min 1 ((dataPointsLast24h : ℚ) / 20)
  let confidence := baseConfidence * freshnessFactor * signalStrength
  max (3/10) (min (3/5) confidence)

/-- `getStationMetadata`: an error result or missing row becomes `null`
(`none`); `stalls_total ?? 4` applies; a thrown exception propagates. -/
def getStationMetadata (resp : SupaResp StationRow) :
    Except Unit (Option StationMeta) :=
  match resp with
  | SupaResp.throws => Except.error ()
  | SupaResp.errorResult => Except.ok none
  | SupaResp.ok row =>
    Except.ok (some { id := row.id
                      stallsTotal := row.stalls_total.getD 4
                      maxPowerKw := row.max_power_kw })

/-- `getSessionStats`: error / missing row becomes `null`; numeric fields go
through `Number(x) || 0` and `last_computed_at ?? now`. -/
def getSessionStats (now : Int) (resp : SupaResp SessionStatsRow) :
    Except Unit (Option SessionStatsRecord) :=
  match resp with
  | SupaResp.throws => Except.error ()
  | SupaResp.errorResult => Except.ok none
  | SupaResp.ok row =>
    Except.ok (some { station_id := row.station_id
                      day_of_week := row.day_of_week
                      hour_of_day := row.hour_of_day
                      median_session_min := row.median_session_min.getD 0
                      p75_session_min := row.p75_session_min.getD 0
                      avg_queue_length := row.avg_queue_length.getD 0
                      sample_count := row.sample_count.getD 0
                      last_computed_at := row.last_computed_at.getD now })

/-- `getRecentObservations`: an error result becomes `[]`; a thrown
exception propagates. The time-window filter, ordering and limit are applied
by the repository, so the `ok` payload is its result list. -/
def getRecentObservations (resp : SupaResp (List ObservationRecord)) :
    Except Unit (List ObservationRecord) :=
  match resp with
  | SupaResp.throws => Except.error ()
  | SupaResp.errorResult => Except.ok []
  | SupaResp.ok rows => Except.ok rows

/-- The filter producing `queueObs`: type `in_queue` and a truthy
`queue_position` (note: position `0` is falsy and excluded). -/
def isQueueObs (o : ObservationRecord) : Bool :=
  o.observation_type == "in_queue" && truthyNum o.queue_position

/-- The filter producing `sessionObs`: type `done_charging` and a truthy
`session_duration_min`. -/
def isSessionObs (o : ObservationRecord) : Bool :=
  o.observation_type == "done_charging" && truthyNum o.session_duration_min

/-- `queueObs` from step 1. -/
def queueObsOf (recentObs : List ObservationRecord) : List ObservationRecord :=
  recentObs.filter isQueueObs

/-- `sessionObs` from step 1. -/
def sessionObsOf (recentObs : List ObservationRecord) : List ObservationRecord :=
  recentObs.filter isSessionObs

/-- `sessionStats?.median_session_min || getIndustryDefault(maxPowerKw)`:
a missing record or a median of `0` falls back to the industry default. -/
def sessionTimeOf (sessionStats : Option SessionStatsRecord)
    (maxPowerKw : Option ℚ) : ℚ :=
  match sessionStats with
  | some s =>
    if s.median_session_min = 0 then getIndustryDefault maxPowerKw
    else s.median_session_min
  | none => getIndustryDefault maxPowerKw

/-- Step 1: `crowdEstimate` (null when there are no recent observations or
none match either shape). -/
def crowdEstimateOf (stationMeta : StationMeta)
    (sessionStats : Option SessionStatsRecord)
    (recentObs : List ObservationRecord) : Option ℚ :=
  match recentObs with
  | [] => none
  | _ :: _ =>
    let queueObs := queueObsOf recentObs
    let sessionObs := sessionObsOf recentObs
    if queueObs.length > 0 then
      let avgQueuePosition : ℚ :=
        (queueObs.map fun o => o.queue_position.getD 0).sum / (queueObs.length : ℚ)
      let sessionTime := sessionTimeOf sessionStats stationMeta.maxPowerKw
      let stallsFactor : ℚ :=
        if stationMeta.stallsTotal = 0 then 4 else (stationMeta.stallsTotal : ℚ)
      some (avgQueuePosition * sessionTime / stallsFactor)
    else if sessionObs.length > 0 then
      let avgSessionDuration : ℚ :=
        (sessionObs.map fun o => o.session_duration_min.getD 0).sum /
          (sessionObs.length : ℚ)
      some (avgSessionDuration * (1/2))
    else none

/-- Step 2: `historicalEstimate` is the median of the matched record. -/
def historicalEstimateOf (sessionStats : Option SessionStatsRecord) : Option ℚ :=
  sessionStats.map fun s => s.median_session_min

/-- `freshnessMinutes` after step 1: initialised to 60, overwritten with the
age (in whole minutes) of the most recent observation when one exists. -/
def freshnessAfterCrowd (now : Int) (recentObs : List ObservationRecord) : Int :=
  match recentObs with
  | [] => 60
  | mostRecent :: _ => Int.fdiv (now - mostRecent.observed_at) 60000

/-- `freshnessMinutes` after step 2: the historical record's own age replaces
it when strictly smaller. -/
def freshnessOf (now : Int) (recentObs : List ObservationRecord)
    (sessionStats : Option SessionStatsRecord) : Int :=
  let f := freshnessAfterCrowd now recentObs
  match sessionStats with
  | none => f
  | some s =>
    let statsAgeMinutes := Int.fdiv (now - s.last_computed_at) 60000
    if statsAgeMinutes < f then statsAgeMinutes else f

/-- The `sources` array in push order: `crowd_recent` in step 1 whenever any
recent observation exists, `historical` in step 2 whenever the stats record
exists, `heuristic` in step 3 when both estimates are null. -/
def sourcesOf (stationMeta : StationMeta)
    (sessionStats : Option SessionStatsRecord)
    (recentObs : List ObservationRecord) : List ConfidenceSource :=
  (if recentObs.length > 0 then [ConfidenceSource.crowd_recent] else []) ++
  (if sessionStats.isSome then [ConfidenceSource.historical] else []) ++
  (if (crowdEstimateOf stationMeta sessionStats recentObs).isNone &&
      sessionStats.isNone
   then [ConfidenceSource.heuristic] else [])

/-- `Math.ceil` on a rational, computably: `⌈q⌉ = -⌊-q⌋`. -/
def jsCeil (q : ℚ) : ℤ :=
  -Rat.floor (-q)

/-- Step 3: the weighted average / fallback value of `waitMinutes` before the
popularity adjustment. -/
def blendWait (maxPowerKw : Option ℚ) :
    Option ℚ → Option ℚ → ℚ
  | some c, some h => c * (7/10) + h * (3/10)
  | some c, none => c
  | none, some h => h * (1/2)
  | none, none => getIndustryDefault maxPowerKw * (1/2)

/-- The `no_data` estimate returned for a missing station or a caught
exception. -/
def noDataEstimate (stationId : String) (now : Int) : Estimate :=
  { stationId := stationId
    etaWaitMinutes := none
    confidence := 0
    mode := EstimationMode.no_data
    sourcesUsed := []
    computedAt := now }

/-- Steps 1-5 of `estimateWaitTime` once the three inputs are in hand. -/
def computeEstimate (now : Int) (stationId : String) (stationMeta : StationMeta)
    (recentObs : List ObservationRecord)
    (sessionStats : Option SessionStatsRecord) : Estimate :=
  let dataPointsLast24h := recentObs.length
  let crowdEstimate := crowdEstimateOf stationMeta sessionStats recentObs
  let historicalEstimate := historicalEstimateOf sessionStats
  let sources := sourcesOf stationMeta sessionStats recentObs
  let freshnessMinutes := freshnessOf now recentObs sessionStats
  let waitRaw := blendWait stationMeta.maxPowerKw crowdEstimate historicalEstimate
  let waitMinutes : Int :=
    jsCeil (waitRaw * getPopularityMultiplier stationMeta.stallsTotal)
  let confidence :=
    calculateConfidence sources (freshnessMinutes : ℚ) dataPointsLast24h
  { stationId := stationId
    etaWaitMinutes := some (waitMinutes : ℚ)
    confidence := confidence
    mode := EstimationMode.fallback
    sourcesUsed := sources
    computedAt := now }

/-- The body of the `try` block of `estimateWaitTime`; a thrown repository
exception surfaces as `Except.error`. -/
def estimateWaitTimeCore (now : Int) (stationId : String) (repo : RepoReads) :
    Except Unit Estimate := do
  let stationMetaOpt ← getStationMetadata repo.stationResp
  match stationMetaOpt with
  | none => return noDataEstimate stationId now
  | some stationMeta => do
    let recentObs ← getRecentObservations repo.obsResp
    let sessionStats ← getSessionStats now repo.statsResp
    return computeEstimate now stationId stationMeta recentObs sessionStats

/-- `estimateWaitTime`: the `catch` converts any thrown exception into the
`no_data` estimate. -/
def estimateWaitTime (now : Int) (stationId : String) (repo : RepoReads) :
    Estimate :=
  match estimateWaitTimeCore now stationId repo with
  | Except.ok e => e
  | Except.error _ => noDataEstimate stationId now

/-- `estimateWaitTimeBatch`: one independent `estimateWaitTime` call per
identifier, each result stored under its own identifier. -/
def estimateWaitTimeBatch (now : Int) (stationIds : List String)
    (repo : String → RepoReads) : List (String × Estimate) :=
  stationIds.map fun id => (id, estimateWaitTime now id (repo id))

/-! Concrete inputs used to exercise the estimator (Scenario B / C of the
spec and the falsy queue-position edge case). -/

/-- A `stations` row with 4 stalls and 150 kW (Scenarios B and C). -/
def stationRowA : StationRow :=
  { id := "st-1", stalls_total := some 4, max_power_kw := some 150 }

/-- The corresponding `StationMeta`. -/
def metaA : StationMeta :=
  { id := "st-1", stallsTotal := 4, maxPowerKw := some 150 }

/-- One recent `in_queue` observation with `queuePosition = 2`. -/
def obsQueue2 : ObservationRecord :=
  { id := "ob-1", station_id := "st-1", observation_type := "in_queue",
    queue_position := some 2, session_duration_min := none, observed_at := 0 }

/-- A recent `in_queue` observation with `queuePosition = 0`. -/
def obsQueue0 : ObservationRecord :=
  { id := "ob-2", station_id := "st-1", observation_type := "in_queue",
    queue_position := some 0, session_duration_min := none, observed_at := 0 }

/-- A recent observation matching neither filter shape. -/
def obsPlugged : ObservationRecord :=
  { id := "ob-3", station_id := "st-1", observation_type := "plugged_in",
    queue_position := none, session_duration_min := none, observed_at := 0 }

/-- A `session_stats_hourly` row with `median_session_min = 30` (Scenario C). -/
def statsRow30 : SessionStatsRow :=
  { station_id := "st-1", day_of_week := 0, hour_of_day := 0,
    median_session_min := some 30, p75_session_min := some 40,
    avg_queue_length := some 1, sample_count := some 1,
    last_computed_at := some 0 }

/-- The `SessionStatsRecord` built from `statsRow30`. -/
def statsRec30 : SessionStatsRecord :=
  { station_id := "st-1", day_of_week := 0, hour_of_day := 0,
    median_session_min := 30, p75_session_min := 40, avg_queue_length := 1,
    sample_count := 1, last_computed_at := 0 }

/-- A stats record whose median coerced to `0`. -/
def statsRec0 : SessionStatsRecord :=
  { station_id := "st-1", day_of_week := 0, hour_of_day := 0,
    median_session_min := 0, p75_session_min := 0, avg_queue_length := 0,
    sample_count := 1, last_computed_at := 0 }

/-- Repository behaviour for Scenario C. -/
def repoScenarioC : RepoReads :=
  { stationResp := SupaResp.ok stationRowA
    obsResp := SupaResp.ok [obsQueue2]
    statsResp := SupaResp.ok statsRow30 }

/-- Repository behaviour for Scenario B (no historical row). -/
def repoScenarioB : RepoReads :=
  { stationResp := SupaResp.ok stationRowA
    obsResp := SupaResp.ok [obsQueue2]
    statsResp := SupaResp.errorResult }

/-- Repository behaviour where every read throws. -/
def repoThrows : RepoReads :=
  { stationResp := SupaResp.throws
    obsResp := SupaResp.throws
    statsResp := SupaResp.throws }

/-- Repository behaviour where the station row is found but the observation
and stats reads return error results (not exceptions). -/
def repoObsError : RepoReads :=
  { stationResp := SupaResp.ok stationRowA
    obsResp := SupaResp.errorResult
    statsResp := SupaResp.errorResult }

/-! Helper lemmas. -/

theorem jsCeil_eq_ceil (q : ℚ) : jsCeil q = ⌈q⌉ := rfl

theorem ratFloor_eq (q : ℚ) : Rat.floor q = ⌊q⌋ := rfl

theorem le_calculateConfidence (sources : List ConfidenceSource)
    (f : ℚ) (n : Nat) : 3/10 ≤ calculateConfidence sources f n := by
  simp only [calculateConfidence]
  exact le_max_left _ _

theorem calculateConfidence_le (sources : List ConfidenceSource)
    (f : ℚ) (n : Nat) : calculateConfidence sources f n ≤ 3/5 := by
  simp only [calculateConfidence]
  exact max_le (by norm_num) (min_le_left _ _)

theorem calculateConfidence_zero_points (sources : List ConfidenceSource)
    (f : ℚ) : calculateConfidence sources f 0 = 3/10 := by
  simp only [calculateConfidence]
  norm_num

theorem sourcesOf_ne_nil (m : StationMeta) (st : Option SessionStatsRecord)
    (obs : List ObservationRecord) : sourcesOf m st obs ≠ [] := by
  cases obs <;> cases st <;> simp [sourcesOf, crowdEstimateOf]

theorem computeEstimate_mode (now : Int) (id : String) (m : StationMeta)
    (obs : List ObservationRecord) (st : Option SessionStatsRecord) :
    (computeEstimate now id m obs st).mode = EstimationMode.fallback := rfl

theorem computeEstimate_stationId (now : Int) (id : String) (m : StationMeta)
    (obs : List ObservationRecord) (st : Option SessionStatsRecord) :
    (computeEstimate now id m obs st).stationId = id := rfl

theorem computeEstimate_computedAt (now : Int) (id : String) (m : StationMeta)
    (obs : List ObservationRecord) (st : Option SessionStatsRecord) :
    (computeEstimate now id m obs st).computedAt = now := rfl

theorem computeEstimate_sourcesUsed (now : Int) (id : String) (m : StationMeta)
    (obs : List ObservationRecord) (st : Option SessionStatsRecord) :
    (computeEstimate now id m obs st).sourcesUsed = sourcesOf m st obs := rfl

theorem computeEstimate_confidence (now : Int) (id : String) (m : StationMeta)
    (obs : List ObservationRecord) (st : Option SessionStatsRecord) :
    (computeEstimate now id m obs st).confidence =
      calculateConfidence (sourcesOf m st obs)
        ((freshnessOf now obs st : Int) : ℚ) obs.length := rfl

theorem computeEstimate_eta (now : Int) (id : String) (m : StationMeta)
    (obs : List ObservationRecord) (st : Option SessionStatsRecord) :
    (computeEstimate now id m obs st).etaWaitMinutes =
      some ((jsCeil (blendWait m.maxPowerKw (crowdEstimateOf m st obs)
        (historicalEstimateOf st) * getPopularityMultiplier m.stallsTotal) : ℤ) : ℚ) :=
  rfl

/-- Every run of `estimateWaitTime` either takes one of the `no_data` exits
or completes steps 1-5 on some fetched data. -/
theorem estimateWaitTime_cases (now : Int) (id : String) (repo : RepoReads) :
    estimateWaitTime now id repo = noDataEstimate id now ∨
    ∃ m obs st, estimateWaitTime now id repo = computeEstimate now id m obs st := by
  rcases repo with ⟨sResp, oResp, stResp⟩
  cases sResp <;> cases oResp <;> cases stResp <;>
    first
      | exact Or.inl rfl
      | exact Or.inr ⟨_, _, _, rfl⟩

theorem clamp_mul_mono {b s x y : ℚ} (hb : 0 ≤ b) (hs : 0 ≤ s) (hxy : x ≤ y) :
    max (3/10) (min (3/5) (b * max (3/10) x * s)) ≤
      max (3/10) (min (3/5) (b * max (3/10) y * s)) := by
  have h1 : max (3/10 : ℚ) x ≤ max (3/10) y := max_le_max le_rfl hxy
  have h2 : b * max (3/10 : ℚ) x ≤ b * max (3/10) y :=
    mul_le_mul_of_nonneg_left h1 hb
  have h3 : b * max (3/10 : ℚ) x * s ≤ b * max (3/10) y * s :=
    mul_le_mul_of_nonneg_right h2 hs
  exact max_le_max le_rfl (min_le_min le_rfl h3)

/-! Claim theorems. -/

/-- C1: for every result of `estimateWaitTime`, the four conditions
`mode = no_data`, `etaWaitMinutes = null`, `confidence = 0` and
`sourcesUsed = ∅` are mutually equivalent; in particular every fallback
result has a non-null eta, a non-zero confidence and at least one source. -/
theorem no_data_invariant (now : Int) (stationId : String) (repo : RepoReads) :
    ((estimateWaitTime now stationId repo).mode = EstimationMode.no_data ↔
      (estimateWaitTime now stationId repo).etaWaitMinutes = none) ∧
    ((estimateWaitTime now stationId repo).mode = EstimationMode.no_data ↔
      (estimateWaitTime now stationId repo).confidence = 0) ∧
    ((estimateWaitTime now stationId repo).mode = EstimationMode.no_data ↔
      (estimateWaitTime now stationId repo).sourcesUsed = []) := by
  rcases estimateWaitTime_cases now stationId repo with h | ⟨m, obs, st, h⟩ <;> rw [h]
  · simp [noDataEstimate]
  · have hconf : (computeEstimate now stationId m obs st).confidence ≠ 0 := by
      have hle := le_calculateConfidence (sourcesOf m st obs)
        ((freshnessOf now obs st : Int) : ℚ) obs.length
      rw [computeEstimate_confidence]
      intro h0
      rw [h0] at hle
      norm_num at hle
    simp [computeEstimate_mode, computeEstimate_eta, computeEstimate_sourcesUsed,
      hconf, sourcesOf_ne_nil]

/-- C2: every non-`no_data` result has confidence in `[0.3, 0.6]`. -/
theorem confidence_bounds (now : Int) (stationId : String) (repo : RepoReads)
    (h : (estimateWaitTime now stationId repo).mode ≠ EstimationMode.no_data) :
    3/10 ≤ (estimateWaitTime now stationId repo).confidence ∧
      (estimateWaitTime now stationId repo).confidence ≤ 3/5 := by
  rcases estimateWaitTime_cases now stationId repo with heq | ⟨m, obs, st, heq⟩
  · rw [heq] at h
    simp [noDataEstimate] at h
  · rw [heq, computeEstimate_confidence]
    exact ⟨le_calculateConfidence _ _ _, calculateConfidence_le _ _ _⟩

/-- Witness for C2 at Scenario B's inputs. -/
theorem confidence_bounds_witness :
    (estimateWaitTime 0 "st-1" repoScenarioB).mode ≠ EstimationMode.no_data ∧
    (3/10 ≤ (estimateWaitTime 0 "st-1" repoScenarioB).confidence ∧
      (estimateWaitTime 0 "st-1" repoScenarioB).confidence ≤ 3/5) := by
  have hmode : (estimateWaitTime 0 "st-1" repoScenarioB).mode =
      EstimationMode.fallback := rfl
  have hne : (estimateWaitTime 0 "st-1" repoScenarioB).mode ≠
      EstimationMode.no_data := by
    rw [hmode]
    decide
  exact ⟨hne, confidence_bounds 0 "st-1" repoScenarioB hne⟩

/-- C6: holding the sources and the observation count fixed, the computed
confidence is monotonically non-increasing in `freshnessMinutes`. -/
theorem confidence_freshness_antitone (sources : List ConfidenceSource)
    (n : Nat) (f1 f2 : ℚ) (h : f1 ≤ f2) :
    calculateConfidence sources f2 n ≤ calculateConfidence sources f1 n := by
  simp only [calculateConfidence]
  refine clamp_mul_mono ?_ ?_ (by linarith)
  · split
    · norm_num
    · split <;> norm_num
  · exact le_min (by norm_num) (by positivity)

/-- Witness for C6 at freshness ages 0 and 30. -/
theorem confidence_freshness_antitone_witness :
    (0 : ℚ) ≤ 30 ∧
    calculateConfidence [ConfidenceSource.crowd_recent] 30 5 ≤
      calculateConfidence [ConfidenceSource.crowd_recent] 0 5 :=
  ⟨by norm_num,
    confidence_freshness_antitone [ConfidenceSource.crowd_recent] 5 0 30 (by norm_num)⟩

/-- C9: with zero recent observations the signal strength is 0, so every
fallback estimate built from historical data alone (or the heuristic alone)
has confidence exactly 0.3, whatever the base confidence and freshness. -/
theorem zero_observations_confidence :
    (∀ (sources : List ConfidenceSource) (f : ℚ),
      calculateConfidence sources f 0 = 3/10) ∧
    (∀ (now : Int) (id : String) (m : StationMeta)
        (st : Option SessionStatsRecord),
      (computeEstimate now id m [] st).mode = EstimationMode.fallback ∧
      (computeEstimate now id m [] st).confidence = 3/10) := by
  refine ⟨fun s f => calculateConfidence_zero_points s f,
    fun now id m st => ⟨rfl, ?_⟩⟩
  rw [computeEstimate_confidence]
  exact calculateConfidence_zero_points _ _

/-- C3 counterexample: an `in_queue` observation with `queuePosition = 0` is
excluded by the truthiness filter, so the crowd estimate is absent (not `0`)
and the heuristic path is taken. -/
theorem queue_position_zero_counterexample :
    isQueueObs obsQueue0 = false ∧
    queueObsOf [obsQueue0] = [] ∧
    crowdEstimateOf metaA none [obsQueue0] = none ∧
    ConfidenceSource.heuristic ∈
      (computeEstimate 0 "st-1" metaA [obsQueue0] none).sourcesUsed := by
  decide

/-- C3 as amended: a recent `in_queue` observation whose `queuePosition` is
`0` is excluded as falsy; a station whose only recent observation is such a
report has no crowd estimate and (absent a historical record) takes the
industry-default heuristic path, tagged with both `crowd_recent` and
`heuristic`. -/
theorem queue_position_zero_excluded (now : Int) (id : String)
    (m : StationMeta) (o : ObservationRecord)
    (h1 : o.observation_type = "in_queue") (h2 : o.queue_position = some 0) :
    isQueueObs o = false ∧
    queueObsOf [o] = [] ∧
    crowdEstimateOf m none [o] = none ∧
    ConfidenceSource.crowd_recent ∈
      (computeEstimate now id m [o] none).sourcesUsed ∧
    ConfidenceSource.heuristic ∈
      (computeEstimate now id m [o] none).sourcesUsed ∧
    (computeEstimate now id m [o] none).etaWaitMinutes =
      some ((jsCeil (getIndustryDefault m.maxPowerKw * (1/2) *
        getPopularityMultiplier m.stallsTotal) : ℤ) : ℚ) := by
  have hq : isQueueObs o = false := by
    simp [isQueueObs, h2, truthyNum]
  have hs : isSessionObs o = false := by
    simp [isSessionObs, h1]
  have hQ : queueObsOf [o] = [] := by
    simp [queueObsOf, List.filter, hq]
  have hS : sessionObsOf [o] = [] := by
    simp [sessionObsOf, List.filter, hs]
  have hc : crowdEstimateOf m none [o] = none := by
    simp [crowdEstimateOf, hQ, hS]
  have hsrc : sourcesOf m none [o] =
      [ConfidenceSource.crowd_recent, ConfidenceSource.heuristic] := by
    simp [sourcesOf, hc]
  refine ⟨hq, hQ, hc, ?_, ?_, ?_⟩
  · rw [computeEstimate_sourcesUsed, hsrc]
    simp
  · rw [computeEstimate_sourcesUsed, hsrc]
    simp
  · rw [computeEstimate_eta, hc]
    rfl

/-- Witness for the amended C3 at the concrete zero-position observation. -/
theorem queue_position_zero_excluded_witness :
    obsQueue0.observation_type = "in_queue" ∧
    obsQueue0.queue_position = some 0 ∧
    (isQueueObs obsQueue0 = false ∧
     queueObsOf [obsQueue0] = [] ∧
     crowdEstimateOf metaA none [obsQueue0] = none ∧
     ConfidenceSource.crowd_recent ∈
       (computeEstimate 0 "st-1" metaA [obsQueue0] none).sourcesUsed ∧
     ConfidenceSource.heuristic ∈
       (computeEstimate 0 "st-1" metaA [obsQueue0] none).sourcesUsed ∧
     (computeEstimate 0 "st-1" metaA [obsQueue0] none).etaWaitMinutes =
       some ((jsCeil (getIndustryDefault metaA.maxPowerKw * (1/2) *
         getPopularityMultiplier metaA.stallsTotal) : ℤ) : ℚ)) :=
  ⟨rfl, rfl, queue_position_zero_excluded 0 "st-1" metaA obsQueue0 rfl rfl⟩

/-- C4 amended, totality part: every result carries the requested station id
and timestamp and is a `fallback` or `no_data` estimate; a missing station
row, an error result on the stations read, or a thrown exception on any of
the three reads yields the `no_data` estimate; but an error result on the
observations or stats reads alone leaves the estimator on the `fallback`
path. -/
theorem estimate_total_no_raise (now : Int) (id : String) (repo : RepoReads) :
    ((estimateWaitTime now id repo).stationId = id ∧
     (estimateWaitTime now id repo).computedAt = now ∧
     ((estimateWaitTime now id repo).mode = EstimationMode.fallback ∨
      (estimateWaitTime now id repo).mode = EstimationMode.no_data)) ∧
    ((repo.stationResp = SupaResp.throws ∨
      repo.stationResp = SupaResp.errorResult ∨
      repo.obsResp = SupaResp.throws ∨
      repo.statsResp = SupaResp.throws) →
      estimateWaitTime now id repo = noDataEstimate id now) ∧
    (∀ row, repo.stationResp = SupaResp.ok row →
      repo.obsResp ≠ SupaResp.throws → repo.statsResp ≠ SupaResp.throws →
      (estimateWaitTime now id repo).mode = EstimationMode.fallback) := by
  refine ⟨?_, ?_, ?_⟩
  · rcases estimateWaitTime_cases now id repo with h | ⟨m, o, s, h⟩ <;> rw [h]
    · exact ⟨rfl, rfl, Or.inr rfl⟩
    · exact ⟨rfl, rfl, Or.inl rfl⟩
  · rcases repo with ⟨sResp, oResp, stResp⟩
    intro hfail
    cases sResp <;> cases oResp <;> cases stResp <;>
      first
        | rfl
        | (exfalso; rcases hfail with h | h | h | h <;> simp at h)
  · rcases repo with ⟨sResp, oResp, stResp⟩
    intro row hrow hobs hstats
    cases sResp <;> cases oResp <;> cases stResp <;>
      first
        | rfl
        | exact absurd rfl hobs
        | exact absurd rfl hstats
        | exact SupaResp.noConfusion hrow

/-- C4 counterexample: with the station row present but both remaining reads
returning error results (not exceptions), the estimator does not degrade to
`no_data` — it proceeds on the fallback path. -/
theorem repo_error_result_counterexample :
    (estimateWaitTime 0 "st-1" repoObsError).mode = EstimationMode.fallback ∧
    estimateWaitTime 0 "st-1" repoObsError ≠ noDataEstimate "st-1" 0 := by
  refine ⟨rfl, fun h => ?_⟩
  have h1 : (estimateWaitTime 0 "st-1" repoObsError).mode =
      EstimationMode.fallback := rfl
  rw [h] at h1
  exact EstimationMode.noConfusion h1

/-- Witness for the amended C4, discharging the failure hypothesis with a
thrown station read. -/
theorem estimate_total_no_raise_witness :
    estimateWaitTime 0 "st-1" repoThrows = noDataEstimate "st-1" 0 ∧
    (estimateWaitTime 0 "st-1" repoThrows).stationId = "st-1" :=
  ⟨(estimate_total_no_raise 0 "st-1" repoThrows).2.1 (Or.inl rfl),
   (estimate_total_no_raise 0 "st-1" repoThrows).1.1⟩

/-- C5 counterexample: at Scenario C's inputs the code returns
`etaWaitMinutes = 16`, not the spec's stated `15`. -/
theorem scenario_c_eta_counterexample :
    (estimateWaitTime 0 "st-1" repoScenarioC).etaWaitMinutes = some 16 ∧
    (estimateWaitTime 0 "st-1" repoScenarioC).etaWaitMinutes ≠ some 15 := by
  have hbridge : estimateWaitTime 0 "st-1" repoScenarioC =
      computeEstimate 0 "st-1" metaA [obsQueue2] (some statsRec30) := rfl
  have he : (estimateWaitTime 0 "st-1" repoScenarioC).etaWaitMinutes =
      some 16 := by
    rw [hbridge, computeEstimate_eta]
    norm_num [crowdEstimateOf, queueObsOf, sessionObsOf, isQueueObs, isSessionObs,
      truthyNum, metaA, obsQueue2, statsRec30, sessionTimeOf, historicalEstimateOf,
      blendWait, getPopularityMultiplier, getIndustryDefault, INDUSTRY_DEFAULTS,
      jsCeil, ratFloor_eq, List.filter]
  refine ⟨he, ?_⟩
  rw [he]
  norm_num

/-- C5 as amended: with the historical median 30 present, the crowd estimate
itself uses that median as session time, `crowdEstimate = 2 × 30 / 4 = 15`;
the blend is `0.7 × 15 + 0.3 × 30 = 19.5`, times the popularity multiplier
`0.8` and rounded up, giving `etaWaitMinutes = 16` (not the spec's `15`,
which reused Scenario B's DC-fast crowd estimate), with
`sourcesUsed = [crowd_recent, historical]`. -/
theorem scenario_c_amended :
    crowdEstimateOf metaA (some statsRec30) [obsQueue2] = some 15 ∧
    sessionTimeOf (some statsRec30) metaA.maxPowerKw = 30 ∧
    (estimateWaitTime 0 "st-1" repoScenarioC).sourcesUsed =
      [ConfidenceSource.crowd_recent, ConfidenceSource.historical] ∧
    (estimateWaitTime 0 "st-1" repoScenarioC).etaWaitMinutes =
      some ((jsCeil ((15 * (7/10) + 30 * (3/10)) * (4/5)) : ℤ) : ℚ) ∧
    (estimateWaitTime 0 "st-1" repoScenarioC).etaWaitMinutes = some 16 := by
  have hbridge : estimateWaitTime 0 "st-1" repoScenarioC =
      computeEstimate 0 "st-1" metaA [obsQueue2] (some statsRec30) := rfl
  refine ⟨?_, ?_, ?_, ?_, ?_⟩
  · norm_num [crowdEstimateOf, queueObsOf, sessionObsOf, isQueueObs, isSessionObs,
      truthyNum, metaA, obsQueue2, statsRec30, sessionTimeOf, List.filter]
  · norm_num [sessionTimeOf, statsRec30, metaA]
  · rw [hbridge]
    decide
  · rw [hbridge, computeEstimate_eta]
    norm_num [crowdEstimateOf, queueObsOf, sessionObsOf, isQueueObs, isSessionObs,
      truthyNum, metaA, obsQueue2, statsRec30, sessionTimeOf, historicalEstimateOf,
      blendWait, getPopularityMultiplier, getIndustryDefault, INDUSTRY_DEFAULTS,
      jsCeil, ratFloor_eq, List.filter]
  · rw [hbridge, computeEstimate_eta]
    norm_num [crowdEstimateOf, queueObsOf, sessionObsOf, isQueueObs, isSessionObs,
      truthyNum, metaA, obsQueue2, statsRec30, sessionTimeOf, historicalEstimateOf,
      blendWait, getPopularityMultiplier, getIndustryDefault, INDUSTRY_DEFAULTS,
      jsCeil, ratFloor_eq, List.filter]

/-- C7: the batch result has exactly the input identifiers as keys, in
order, and each entry is the independent single-station estimate for its own
identifier (so one station's failure cannot alter another's entry). -/
theorem batch_completeness (now : Int) (ids : List String)
    (repo : String → RepoReads) :
    (estimateWaitTimeBatch now ids repo).map Prod.fst = ids ∧
    ∀ p ∈ estimateWaitTimeBatch now ids repo,
      p.2 = estimateWaitTime now p.1 (repo p.1) := by
  constructor
  · induction ids with
    | nil => rfl
    | cons a t ih => simpa [estimateWaitTimeBatch] using ih
  · intro p hp
    simp only [estimateWaitTimeBatch, List.mem_map] at hp
    obtain ⟨a, _, rfl⟩ := hp
    rfl

/-- Witness for C7 on a two-element batch whose reads all throw. -/
theorem batch_completeness_witness :
    (estimateWaitTimeBatch 0 ["st-1", "st-2"] (fun _ => repoThrows)).map
      Prod.fst = ["st-1", "st-2"] ∧
    ("st-1", noDataEstimate "st-1" 0).2 = estimateWaitTime 0 "st-1" repoThrows :=
  ⟨(batch_completeness 0 ["st-1", "st-2"] (fun _ => repoThrows)).1,
   (batch_completeness 0 ["st-1", "st-2"] (fun _ => repoThrows)).2
     ("st-1", noDataEstimate "st-1" 0) (List.Mem.head _)⟩

/-- C8: when recent observations exist but none matches either filter shape,
`crowd_recent` is still tagged although no crowd estimate is produced; with
no historical record either, `heuristic` is tagged too and the wait comes
from half the industry-default session length. -/
theorem crowd_tag_without_estimate (now : Int) (id : String) (m : StationMeta)
    (obs : List ObservationRecord) (st : Option SessionStatsRecord)
    (h1 : obs ≠ []) (h2 : queueObsOf obs = []) (h3 : sessionObsOf obs = []) :
    ConfidenceSource.crowd_recent ∈
      (computeEstimate now id m obs st).sourcesUsed ∧
    crowdEstimateOf m st obs = none ∧
    (st = none →
      ConfidenceSource.heuristic ∈
        (computeEstimate now id m obs st).sourcesUsed ∧
      (computeEstimate now id m obs st).etaWaitMinutes =
        some ((jsCeil (getIndustryDefault m.maxPowerKw * (1/2) *
          getPopularityMultiplier m.stallsTotal) : ℤ) : ℚ)) := by
  have hc : crowdEstimateOf m st obs = none := by
    cases obs with
    | nil => exact absurd rfl h1
    | cons a t => simp [crowdEstimateOf, h2, h3]
  have hmem : ConfidenceSource.crowd_recent ∈ sourcesOf m st obs := by
    cases obs with
    | nil => exact absurd rfl h1
    | cons a t => simp [sourcesOf]
  refine ⟨by rw [computeEstimate_sourcesUsed]; exact hmem, hc, ?_⟩
  rintro rfl
  constructor
  · rw [computeEstimate_sourcesUsed]
    simp [sourcesOf, hc]
  · rw [computeEstimate_eta, hc]
    rfl

/-- Witness for C8 at a single `plugged_in` observation. -/
theorem crowd_tag_without_estimate_witness :
    ([obsPlugged] ≠ ([] : List ObservationRecord)) ∧
    queueObsOf [obsPlugged] = [] ∧
    sessionObsOf [obsPlugged] = [] ∧
    (ConfidenceSource.crowd_recent ∈
       (computeEstimate 0 "st-1" metaA [obsPlugged] none).sourcesUsed ∧
     crowdEstimateOf metaA none [obsPlugged] = none ∧
     (none = (none : Option SessionStatsRecord) →
       ConfidenceSource.heuristic ∈
         (computeEstimate 0 "st-1" metaA [obsPlugged] none).sourcesUsed ∧
       (computeEstimate 0 "st-1" metaA [obsPlugged] none).etaWaitMinutes =
         some ((jsCeil (getIndustryDefault metaA.maxPowerKw * (1/2) *
           getPopularityMultiplier metaA.stallsTotal) : ℤ) : ℚ))) :=
  ⟨by decide, rfl, rfl,
   crowd_tag_without_estimate 0 "st-1" metaA [obsPlugged] none (by decide) rfl rfl⟩

/-- C10: a matched historical row whose median coerces to 0 makes the crowd
formula's session time fall back to the industry default exactly as if the
record were absent, yet the historical signal is still treated as present:
`historical` is tagged and the 0-minute estimate enters the blend, so a
historical-only estimate has `etaWaitMinutes = 0`. -/
theorem historical_median_zero (now : Int) (id : String) (m : StationMeta)
    (s : SessionStatsRecord) (h : s.median_session_min = 0) :
    sessionTimeOf (some s) m.maxPowerKw = getIndustryDefault m.maxPowerKw ∧
    sessionTimeOf none m.maxPowerKw = getIndustryDefault m.maxPowerKw ∧
    historicalEstimateOf (some s) = some 0 ∧
    ConfidenceSource.historical ∈
      (computeEstimate now id m [] (some s)).sourcesUsed ∧
    (computeEstimate now id m [] (some s)).etaWaitMinutes = some 0 := by
  refine ⟨by simp [sessionTimeOf, h], rfl, by simp [historicalEstimateOf, h], ?_, ?_⟩
  · rw [computeEstimate_sourcesUsed]
    simp [sourcesOf]
  · rw [computeEstimate_eta]
    norm_num [crowdEstimateOf, historicalEstimateOf, h, blendWait, jsCeil,
      ratFloor_eq]

/-- Witness for C10 at the concrete zero-median stats record. -/
theorem historical_median_zero_witness :
    statsRec0.median_session_min = 0 ∧
    (sessionTimeOf (some statsRec0) metaA.maxPowerKw =
       getIndustryDefault metaA.maxPowerKw ∧
     sessionTimeOf none metaA.maxPowerKw = getIndustryDefault metaA.maxPowerKw ∧
     historicalEstimateOf (some statsRec0) = some 0 ∧
     ConfidenceSource.historical ∈
       (computeEstimate 0 "st-1" metaA [] (some statsRec0)).sourcesUsed ∧
     (computeEstimate 0 "st-1" metaA [] (some statsRec0)).etaWaitMinutes =
       some 0) :=
  ⟨rfl, historical_median_zero 0 "st-1" metaA statsRec0 rfl⟩

end WattzUp
